import Mathlib

/-!
Shallow embedding of the synchronization orchestration engine of the
email_sync repository (src/oauth.py, src/config.py, src/sync.py,
src/sync_improved.py), together with theorems settling the specification
claims about it.  Pure control flow is translated into executable Lean
functions; external collaborators (the token endpoint, the Fernet cipher,
the child transfer process) appear as explicit oracle parameters giving
their observable answers.
-/

namespace EmailSync

/-- Auxiliary scan for substring containment on character lists. -/
def containsSubAux (pat : List Char) : List Char → Bool
  | [] => pat == []
  | c :: cs => pat.isPrefixOf (c :: cs) || containsSubAux pat cs

/-- Boolean substring containment, used to model the Python `in` operator
on strings (for example the check that a message contains "Token expired"). -/
def containsSub (s pat : String) : Bool :=
  containsSubAux pat.data s.data

/-- Model of the Python expression `list(set(a) | set(b))` as used for the
checkpoint update in sync_improved.py (lines 346-348 and 377-379): only the
membership of the result matters, so we realise the union as `a` followed by
the elements of `b` not already present. -/
def listUnion (a b : List String) : List String :=
  a ++ b.filter (fun f => !(a.contains f))

/-! ## Token lifecycle (src/oauth.py) -/

/-- The fields of `OAuth2Manager.tokens` consulted by `get_valid_token`
(oauth.py lines 148-173).  `accessToken` is the stored access token
(`none` when the key is absent; the empty string is falsy in Python and is
kept explicit).  `expiresAt` collapses the stored `expires_at` string into:
`none` when absent or falsy, `some none` when present but
`datetime.fromisoformat` raises `ValueError`, and `some (some t)` when it
parses to the instant `t` (seconds).  `refreshTokenValue` and `grantType`
are the `refresh_token` and `grant_type` entries. -/
structure TokensRecord where
  accessToken : Option String
  expiresAt : Option (Option Int)
  refreshTokenValue : Option String
  grantType : Option String
deriving Repr, DecidableEq

/-- Python falsiness of an optional string value (`not self.tokens.get(k)`). -/
def falsyStr : Option String → Bool
  | none => true
  | some s => s == ""

/-- `OAuth2Manager.refresh_token` (oauth.py lines 122-146).  `resp` is the
token endpoint answer: `none` for a network error, otherwise the new access
token, its `expires_in` (seconds) and an optional replacement refresh token.
Returns the updated record, whether the call reported success, and the
number of network requests issued.  When no refresh token is stored, the
method returns `False` without any network call. -/
def refresh_token (st : TokensRecord) (now : Int)
    (resp : Option (String × Int × Option String)) :
    TokensRecord × Bool × Nat :=
  if falsyStr st.refreshTokenValue then (st, false, 0)
  else
    match resp with
    | none => (st, false, 1)
    | some (tok, expiresIn, newRefresh) =>
      ({ st with
          accessToken := some tok,
          refreshTokenValue :=
            match newRefresh with
            | some r => some r
            | none => st.refreshTokenValue,
          expiresAt := some (some (now + expiresIn - 300)) }, true, 1)

/-- `OAuth2Manager.acquire_token` (oauth.py lines 185-220), the client
credentials grant: on success the token record is replaced wholesale with
the new access token, its adjusted expiry, and `grant_type =
"client_credentials"` (the stored `token_type` field is not consulted by any
code under scrutiny and is omitted).  One network request is always
issued. -/
def acquire_token (st : TokensRecord) (now : Int)
    (resp : Option (String × Int)) :
    TokensRecord × Bool × Nat :=
  match resp with
  | none => (st, false, 1)
  | some (tok, expiresIn) =>
    ({ accessToken := some tok,
       expiresAt := some (some (now + expiresIn - 300)),
       refreshTokenValue := none,
       grantType := some "client_credentials" }, true, 1)

/-- `OAuth2Manager.refresh_client_credentials_token` (oauth.py lines
222-225) simply delegates to `acquire_token`. -/
def refresh_client_credentials_token (st : TokensRecord) (now : Int)
    (resp : Option (String × Int)) :
    TokensRecord × Bool × Nat :=
  acquire_token st now resp

/-- `OAuth2Manager.get_valid_token` (oauth.py lines 148-173).  Returns the
token handed to the caller (`none` on failure), the updated record, and the
number of network requests issued.  The safety margin is ten minutes
(600 seconds): a refresh (or, for client credentials grants, a
re-acquisition) is triggered exactly when `now >= expiresAt - 600`. -/
def get_valid_token (st : TokensRecord) (now : Int)
    (refreshResp : Option (String × Int × Option String))
    (acquireResp : Option (String × Int)) :
    Option String × TokensRecord × Nat :=
  if falsyStr st.accessToken || st.expiresAt == none then (none, st, 0)
  else
    match st.expiresAt with
    | none => (none, st, 0)
    | some none => (none, st, 0)
    | some (some expiresAt) =>
      if now ≥ expiresAt - 600 then
        if st.grantType == some "client_credentials" then
          let (st2, ok, n) := refresh_client_credentials_token st now acquireResp
          if ok then (st2.accessToken, st2, n) else (none, st2, n)
        else
          let (st2, ok, n) := refresh_token st now refreshResp
          if ok then (st2.accessToken, st2, n) else (none, st2, n)
      else (st.accessToken, st, 0)

/-! ## Synchronous sync manager (src/sync.py) -/

/-- The fields of an `EmailAccount` consulted by the sync managers. -/
structure Account where
  email : String
  is_office365 : Bool
  password : String
  dest_email : String
deriving Repr, DecidableEq

/-- `SyncManager.test_connection` (sync.py lines 36-55): an Office 365
account needs an OAuth manager and a valid token; a password account needs
a nonempty password.  `oauthTok` is the answer of
`oauth_manager.get_valid_token()`. -/
def test_connection (acct : Account) (oauthPresent : Bool)
    (oauthTok : Option String) : Bool :=
  if acct.is_office365 then oauthPresent && oauthTok.isSome
  else acct.password != ""

/-- One attempt of `SyncManager._run_imapsync` (sync.py lines 94-281),
abstracted over the child process run: `.error` models a raised
RuntimeError, `.ok` a normal return; the second component counts external
tool launches made by the attempt.  When the executable is missing the
method raises before any launch (lines 95-96); when the OAuth token is
unavailable for an Office 365 account it returns failure before any launch
(lines 134-136); otherwise the tool is launched once, exit code 0 returns
success (lines 252-258) and any other exit code raises RuntimeError
(lines 259-281). -/
def run_imapsync_once (avail : Bool) (acct : Account)
    (oauthTok : Option String) (rc : Int) (processed total : Nat) :
    Except String (Bool × String) × Nat :=
  if !avail then
    (.error "imapsync not found. Please install it and ensure it is in PATH.", 0)
  else if acct.is_office365 && oauthTok.isNone then
    (.ok (false, "Failed to get OAuth2 token"), 0)
  else if rc = 0 then
    (.ok (true, "Sync completed successfully - processed " ++ toString processed
      ++ "/" ++ toString total ++ " messages"), 1)
  else
    (.error ("Sync failed with exit code " ++ toString rc), 1)

/-- The retry loop of `SyncManager.run_imapsync_with_retry` (sync.py lines
80-92), at attempt number `k` with `remaining` attempts allowed (the
current one included).  Returns the final (success, message) pair, the
number of attempts made, the backoff delays slept between consecutive
attempts (2 ^ attempt seconds after failed attempt number `attempt`), and
the total number of tool launches. -/
def retry_loop (att : Nat → Except String (Bool × String) × Nat)
    (maxRetries : Nat) : Nat → Nat → (Bool × String) × Nat × List Nat × Nat
  | _, 0 => ((false, "No sync attempts made"), 0, [], 0)
  | k, remaining + 1 =>
    match att k with
    | (.ok r, launches) => (r, 1, [], launches)
    | (.error e, launches) =>
      if remaining = 0 then
        ((false, "Sync failed after " ++ toString maxRetries ++ " attempts: " ++ e),
          1, [], launches)
      else
        let rest := retry_loop att maxRetries (k + 1) remaining
        (rest.1, rest.2.1 + 1, 2 ^ k :: rest.2.2.1, launches + rest.2.2.2)

/-- `SyncManager.run_imapsync_with_retry` (sync.py lines 74-92): the
connection test, the skip of non-Office-365 accounts when no OAuth manager
exists (lines 77-79), then the retry loop starting at attempt 1.  `rc k`
is the exit code of the child process at attempt `k`. -/
def run_imapsync_with_retry (avail : Bool) (acct : Account)
    (oauthPresent : Bool) (oauthTok : Option String) (rc : Nat → Int)
    (processed total maxRetries : Nat) :
    (Bool × String) × Nat × List Nat × Nat :=
  if !test_connection acct oauthPresent oauthTok then
    ((false, "Connection test failed"), 0, [], 0)
  else if !acct.is_office365 && !oauthPresent then
    ((false, "Skipped non-o365 account without OAuth"), 0, [], 0)
  else
    retry_loop (fun k => run_imapsync_once avail acct oauthTok (rc k) processed total)
      maxRetries 1 maxRetries

/-- Aggregate observables of one orchestrator run. -/
structure OrchOutcome where
  probes : Nat
  attempted : Nat
  launches : Nat
deriving Repr, DecidableEq

/-- The per-account loop of `SyncManager.sync_accounts` (sync.py lines
312-340): accounts with no destination password are skipped with
`continue`; otherwise `run_imapsync_with_retry` runs, and the loop breaks
when the shutdown flag is observed set after the account.  Returns how many
accounts were attempted and the total tool launches.  `rc i k` is the exit
code for account number `i`, attempt `k`. -/
def sync_accounts_loop (avail oauthPresent : Bool) (oauthTok : Option String)
    (rc : Nat → Nat → Int) (destPasswords : String → Option String)
    (maxRetries : Nat) (shutdownAfter : Nat → Bool) :
    List Account → Nat → Nat × Nat
  | [], _ => (0, 0)
  | acct :: rest, i =>
    match destPasswords acct.dest_email with
    | none =>
      sync_accounts_loop avail oauthPresent oauthTok rc destPasswords
        maxRetries shutdownAfter rest (i + 1)
    | some _ =>
      let r := run_imapsync_with_retry avail acct oauthPresent oauthTok (rc i)
        0 0 maxRetries
      if shutdownAfter i then (1, r.2.2.2)
      else
        let t := sync_accounts_loop avail oauthPresent oauthTok rc destPasswords
          maxRetries shutdownAfter rest (i + 1)
        (t.1 + 1, r.2.2.2 + t.2)

/-- `SyncManager.sync_accounts` (sync.py lines 283-346): the configuration
and account guards, then exactly one destination reachability probe (lines
302-307); when the probe fails the method returns before any account
work. -/
def sync_accounts (destCfg : Bool) (accounts : List Account) (probeOk : Bool)
    (avail oauthPresent : Bool) (oauthTok : Option String)
    (rc : Nat → Nat → Int) (destPasswords : String → Option String)
    (maxRetries : Nat) (shutdownAfter : Nat → Bool) : OrchOutcome :=
  if !destCfg then ⟨0, 0, 0⟩
  else if accounts.isEmpty then ⟨0, 0, 0⟩
  else if !probeOk then ⟨1, 0, 0⟩
  else
    let t := sync_accounts_loop avail oauthPresent oauthTok rc destPasswords
      maxRetries shutdownAfter accounts 0
    ⟨1, t.1, t.2⟩

/-! ## Folder-batched sync manager (src/sync_improved.py) -/

/-- A token-expiration marker line (sync_improved.py line 234): the line
contains "AccessTokenExpired" or "AUTHENTICATE failed". -/
def tokenMarkerLine (line : String) : Bool :=
  containsSub line "AccessTokenExpired" || containsSub line "AUTHENTICATE failed"

/-- Whether any line streamed from the child process before exit carried a
token-expiration marker (the `token_expired` flag of
`run_imapsync_for_folders`). -/
def tokenExpiredSeen (lines : List String) : Bool :=
  lines.any tokenMarkerLine

/-- The (success, message, failed_folders) triple returned by one
`run_imapsync_for_folders` invocation. -/
structure FolderOutcome where
  success : Bool
  message : String
  failedFolders : List String
deriving Repr, DecidableEq

/-- Final classification of one `run_imapsync_for_folders` invocation
(sync_improved.py lines 258-263) from the streamed output lines, the child
exit code and the counters accumulated by the streaming loop: an observed
token-expiration marker forces the failure "Token expired" regardless of
the exit code; otherwise exit code 0 is success and any other exit is a
failure naming the code and error count. -/
def classify_outcome (lines : List String) (returncode : Int)
    (errorsCount syncedCount : Nat) (failedFolders : List String) :
    FolderOutcome :=
  if tokenExpiredSeen lines then
    ⟨false, "Token expired", failedFolders⟩
  else if returncode = 0 then
    ⟨true, "Synced " ++ toString syncedCount ++ " folders", []⟩
  else
    ⟨false, "Exit code " ++ toString returncode ++ ", " ++ toString errorsCount
      ++ " errors", failedFolders⟩

/-- System folders excluded from discovery (sync_improved.py line 111). -/
def systemFolderDenylist : List String :=
  ["Calendar", "Contacts", "Tasks", "Journal", "Notes"]

/-- Characters up to the first closing bracket, or `none` when there is no
closing bracket: the lazily matched group of the folder pattern. -/
def takeUntilRB : List Char → Option (List Char)
  | [] => none
  | c :: cs => if c = ']' then some [] else (takeUntilRB cs).map (fun l => c :: l)

/-- Characters following the first opening bracket. -/
def afterLB : List Char → Option (List Char)
  | [] => none
  | c :: cs => if c = '[' then takeUntilRB cs else afterLB cs

/-- The first bracketed group of a line, as matched by the pattern at
sync_improved.py line 107. -/
def extractBracket (line : String) : Option String :=
  (afterLB line.data).map (fun l => String.mk l)

/-- Folder name extracted from one line of discovery output
(sync_improved.py lines 104-112). -/
def parseFolderLine (line : String) : Option String :=
  if containsSub line "Host1 folder" && containsSub line "[" &&
      containsSub line "]" then
    match extractBracket line with
    | some folder =>
      if systemFolderDenylist.contains folder then none else some folder
    | none => none
  else none

/-- `ImprovedSyncManager.get_account_folders` (sync_improved.py lines
66-118): parse the discovery stdout lines; on any exception, including the
60-second subprocess timeout, return the empty list (lines 116-118). -/
def get_account_folders (result : Except String (List String)) : List String :=
  match result with
  | .error _ => []
  | .ok stdoutLines => stdoutLines.filterMap parseFolderLine

/-- Fuel-driven chunking; the fuel bounds the number of chunks. -/
def chunksAux (batchSize : Nat) : Nat → List String → List (List String)
  | 0, _ => []
  | _, [] => []
  | fuel + 1, fs => fs.take batchSize :: chunksAux batchSize fuel (fs.drop batchSize)

/-- `ImprovedSyncManager.batch_folders` (sync_improved.py lines 120-122):
`[folders[i:i+batch_size] for i in range(0, len(folders), batch_size)]`.
A zero batch size would raise ValueError in Python and is mapped to the
empty list; the caller always passes 5. -/
def batch_folders (folders : List String) (batchSize : Nat) :
    List (List String) :=
  if batchSize = 0 then [] else chunksAux batchSize folders.length folders

/-- The methods defined on `OAuth2Manager` in oauth.py.  The scheduler at
sync_improved.py line 359 invokes `refresh_access_token`, which is not
among them, so that call raises AttributeError at runtime. -/
def oauth2ManagerMethods : List String :=
  ["load_tokens", "save_tokens", "get_authorization_url",
   "exchange_code_for_tokens", "refresh_token", "get_valid_token",
   "generate_xoauth2_string", "get_xoauth2_for_user", "acquire_token",
   "refresh_client_credentials_token"]

/-- Message of the AttributeError raised by the missing
`refresh_access_token` call, as caught by the handler at sync_improved.py
lines 361-363. -/
def attrErrorMessage : String :=
  "AttributeError: OAuth2Manager object has no attribute refresh_access_token"

/-- Classification of the result of one batch future: success exactly when
the call returned without raising and with success True. -/
def pass1ResSucc : Except String FolderOutcome → Bool
  | .ok o => o.success
  | .error _ => false

/-- Classification of batch number `i` under the pass-1 outcome oracle. -/
def pass1Succ (out : Nat → Except String FolderOutcome) (i : Nat) : Bool :=
  pass1ResSucc (out i)

/-- Mutable state threaded through the `as_completed` loop of
`sync_account_parallel` (sync_improved.py lines 338-365): the checkpoint
entry for the account (saved on each change), the `failed_batches` list,
the number of `save_sync_state` calls, the number of AttributeErrors from
the missing refresh method, and the number of refresh network calls
actually issued. -/
structure Pass1St where
  synced : List String
  failed : List (Nat × List String × String)
  saves : Nat
  refreshAttrErrors : Nat
  refreshNetworkCalls : Nat
deriving Repr, DecidableEq

/-- Handling of one completed batch future (sync_improved.py lines
338-363).  On success the checkpoint entry is extended with the batch
folders and saved.  On failure the batch is appended to `failed_batches`;
when the failure message contains "Token expired" and an OAuth manager is
present, the code calls `oauth_manager.refresh_access_token()`: since
`OAuth2Manager` defines no such method, this raises AttributeError, which
the surrounding except handler catches by appending the same batch to
`failed_batches` a second time.  A future that itself raised is appended
once by that handler. -/
def pass1Step (oauthPresent : Bool) (st : Pass1St) (idx : Nat)
    (batchFolders : List String) (res : Except String FolderOutcome) :
    Pass1St :=
  match res with
  | .ok o =>
    if o.success then
      { st with synced := listUnion st.synced batchFolders,
                saves := st.saves + 1 }
    else
      let st1 := { st with failed := st.failed ++ [(idx, batchFolders, o.message)] }
      if containsSub o.message "Token expired" && oauthPresent then
        if oauth2ManagerMethods.contains "refresh_access_token" then
          { st1 with refreshNetworkCalls := st1.refreshNetworkCalls + 1 }
        else
          { st1 with
              failed := st1.failed ++ [(idx, batchFolders, attrErrorMessage)],
              refreshAttrErrors := st1.refreshAttrErrors + 1 }
      else st1
  | .error e => { st with failed := st.failed ++ [(idx, batchFolders, e)] }

/-- The entries `pass1Step` appends to `failed_batches`. -/
def pass1Adds (oauthPresent : Bool) (idx : Nat) (batchFolders : List String)
    (res : Except String FolderOutcome) : List (Nat × List String × String) :=
  match res with
  | .ok o =>
    if o.success then []
    else if containsSub o.message "Token expired" && oauthPresent then
      if oauth2ManagerMethods.contains "refresh_access_token" then
        [(idx, batchFolders, o.message)]
      else
        [(idx, batchFolders, o.message), (idx, batchFolders, attrErrorMessage)]
    else [(idx, batchFolders, o.message)]
  | .error e => [(idx, batchFolders, e)]

/-- The whole `as_completed` loop over the enumerated batches. -/
def pass1Run (oauthPresent : Bool) (out : Nat → Except String FolderOutcome) :
    List (Nat × List String) → Pass1St → Pass1St
  | [], st => st
  | ib :: rest, st =>
    pass1Run oauthPresent out rest (pass1Step oauthPresent st ib.1 ib.2 (out ib.1))

/-- One retry invocation as recorded in the scheduler result. -/
structure RetryEvent where
  batchIdx : Nat
  folders : List String
  success : Bool
deriving Repr, DecidableEq

/-- The serial retry loop over `failed_batches` (sync_improved.py lines
367-381): each entry is re-run once; success extends and saves the
checkpoint; an invocation that raises propagates out of the loop, leaving
the checkpoint at the state already saved.  Returns the final checkpoint
entry, the retry invocations performed, the total save count, and the
propagated exception if any.  `out j` is the outcome of the retry at
position `j` of the serial order. -/
def retryRun (out : Nat → Except String FolderOutcome) :
    Nat → List (Nat × List String × String) → List String → Nat →
    List String × List RetryEvent × Nat × Option String
  | _, [], synced, saves => (synced, [], saves, none)
  | j, entry :: rest, synced, saves =>
    match out j with
    | .error e => (synced, [⟨entry.1, entry.2.1, false⟩], saves, some e)
    | .ok o =>
      let synced2 := if o.success then listUnion synced entry.2.1 else synced
      let saves2 := if o.success then saves + 1 else saves
      let t := retryRun out (j + 1) rest synced2 saves2
      (t.1, ⟨entry.1, entry.2.1, o.success⟩ :: t.2.1, t.2.2.1, t.2.2.2)

/-- Observable result of one `sync_account_parallel` call: the number of
whole-account fallback invocations, the batched pass-1 invocations with
their classification, the retry invocations performed, the final persisted
checkpoint entry, the `failed_batches` list, the number of checkpoint
saves, the refresh bookkeeping, and a propagated exception if any. -/
structure SchedResult where
  wholeAccountCalls : Nat
  pass1 : List (Nat × List String × Bool)
  retried : List RetryEvent
  synced : List String
  failedBatches : List (Nat × List String × String)
  saves : Nat
  refreshAttrErrors : Nat
  refreshNetworkCalls : Nat
  raised : Option String
deriving Repr, DecidableEq

/-- The batched branch of `sync_account_parallel` (sync_improved.py lines
293-392), over the already enumerated batches: run every batch once in the
pool (oracle `pass1Out`, indexed by batch number), and, when some batch
failed and the account is Office 365 with an OAuth manager present, re-run
every entry of `failed_batches` serially (oracle `retryOut`, indexed by
retry position). -/
def sync_account_batched (prevSynced : List String)
    (isOffice365 oauthPresent : Bool)
    (pass1Out retryOut : Nat → Except String FolderOutcome)
    (batches : List (Nat × List String)) : SchedResult :=
  let st := pass1Run oauthPresent pass1Out batches ⟨prevSynced, [], 0, 0, 0⟩
  let p1 := batches.map (fun ib => (ib.1, ib.2, pass1Succ pass1Out ib.1))
  if !st.failed.isEmpty && isOffice365 && oauthPresent then
    let t := retryRun retryOut 0 st.failed st.synced st.saves
    { wholeAccountCalls := 0, pass1 := p1, retried := t.2.1, synced := t.1,
      failedBatches := st.failed, saves := t.2.2.1,
      refreshAttrErrors := st.refreshAttrErrors,
      refreshNetworkCalls := st.refreshNetworkCalls, raised := t.2.2.2 }
  else
    { wholeAccountCalls := 0, pass1 := p1, retried := [], synced := st.synced,
      failedBatches := st.failed, saves := st.saves,
      refreshAttrErrors := st.refreshAttrErrors,
      refreshNetworkCalls := st.refreshNetworkCalls, raised := none }

/-- `ImprovedSyncManager.sync_account_parallel` (sync_improved.py lines
269-392).  `folders` is the discovery result; when it is empty the method
falls back to exactly one whole-account invocation (lines 286-289).
Otherwise the folders not in the persisted checkpoint entry `prevSynced`
are split into batches of five and handed to the batched branch. -/
def sync_account_parallel (folders prevSynced : List String)
    (isOffice365 oauthPresent : Bool)
    (pass1Out retryOut : Nat → Except String FolderOutcome) : SchedResult :=
  if folders.isEmpty then
    { wholeAccountCalls := 1, pass1 := [], retried := [], synced := prevSynced,
      failedBatches := [], saves := 0, refreshAttrErrors := 0,
      refreshNetworkCalls := 0, raised := none }
  else
    sync_account_batched prevSynced isOffice365 oauthPresent pass1Out retryOut
      ((batch_folders (folders.filter (fun f => !(prevSynced.contains f))) 5).enum)

/-- `ImprovedSyncManager.sync_accounts_parallel` (sync_improved.py lines
463-596): the configuration and account guards, one destination
reachability probe (lines 478-492), then one scheduler task per account
that has a destination password; the external-tool launches of the
per-account scheduler calls are abstracted as `accountWork`. -/
def sync_accounts_parallel (destCfg : Bool) (accounts : List Account)
    (probeOk : Bool) (destPasswords : String → Option String)
    (accountWork : Nat → Nat) : OrchOutcome :=
  if !destCfg then ⟨0, 0, 0⟩
  else if accounts.isEmpty then ⟨0, 0, 0⟩
  else if !probeOk then ⟨1, 0, 0⟩
  else
    let tasks := accounts.filter (fun a => (destPasswords a.dest_email).isSome)
    ⟨1, tasks.length, ((List.range tasks.length).map accountWork).sum⟩

/-- Failing input for C2: six discovered folders forming two batches, the
first reporting "Token expired", the second a transient exit; an Office
365 account with an OAuth manager present; every retry invocation
succeeding. -/
def c2Pass1Out : Nat → Except String FolderOutcome
  | 0 => .ok ⟨false, "Token expired", []⟩
  | _ => .ok ⟨false, "Exit code 1, 3 errors", []⟩

/-- Retry oracle of the C2 failing input: every retry succeeds. -/
def c2RetryOut : Nat → Except String FolderOutcome :=
  fun _ => .ok ⟨true, "Synced 5 folders", []⟩

/-- The scheduler run on the C2 failing input. -/
def c2Run : SchedResult :=
  sync_account_parallel ["F1", "F2", "F3", "F4", "F5", "F6"] [] true true
    c2Pass1Out c2RetryOut

/-! ## Interleaving model of concurrent `get_valid_token` callers (C9)

oauth.py defines no lock: `OAuth2Manager.tokens` is a plain dictionary
mutated by `refresh_token` and read by `get_valid_token`.  We decompose the
near-expiry path of `get_valid_token` at its shared-state accesses and let
two threads interleave freely. -/

/-- The shared token record seen by all concurrent callers, plus a count of
refresh network requests issued so far. -/
structure SharedSt where
  accessToken : String
  expiresAt : Int
  calls : Nat
deriving Repr, DecidableEq

/-- One thread executing `get_valid_token`: pc 0 evaluates the expiry
comparison against the shared record, pc 1 issues the refresh network call
and installs its result into the shared record, pc 2 reads the shared
access token for return, pc 3 is done.  A thread that does not observe
near-expiry skips from pc 0 straight to pc 2. -/
structure ThreadSt where
  pc : Nat
  sawNear : Bool
  ret : Option String
deriving Repr, DecidableEq

/-- One atomic step of a thread.  `fresh` is the token endpoint oracle:
network call number `k` yields an access token and its `expires_in`; the
stored expiry becomes `now + expires_in - 300` as in oauth.py line 140. -/
def threadStep (now : Int) (fresh : Nat → String × Int)
    (sh : SharedSt) (t : ThreadSt) : SharedSt × ThreadSt :=
  match t.pc with
  | 0 =>
    if now ≥ sh.expiresAt - 600 then (sh, { t with pc := 1, sawNear := true })
    else (sh, { t with pc := 2 })
  | 1 =>
    let f := fresh sh.calls
    ({ accessToken := f.1, expiresAt := now + f.2 - 300, calls := sh.calls + 1 },
      { t with pc := 2 })
  | 2 => (sh, { t with pc := 3, ret := some sh.accessToken })
  | _ => (sh, t)

/-- Two threads A and B over the shared record. -/
structure SysSt where
  sh : SharedSt
  a : ThreadSt
  b : ThreadSt
deriving Repr, DecidableEq

/-- Scheduler step: `true` advances thread A, `false` advances thread B. -/
def sysStep (now : Int) (fresh : Nat → String × Int) (s : SysSt) (tid : Bool) :
    SysSt :=
  if tid then
    let p := threadStep now fresh s.sh s.a
    { s with sh := p.1, a := p.2 }
  else
    let p := threadStep now fresh s.sh s.b
    { s with sh := p.1, b := p.2 }

/-- Run a whole schedule, an arbitrary interleaving of the two threads. -/
def runSched (now : Int) (fresh : Nat → String × Int) :
    List Bool → SysSt → SysSt
  | [], s => s
  | tid :: rest, s => runSched now fresh rest (sysStep now fresh s tid)

/-- Initial thread state: about to evaluate the expiry check. -/
def initThread : ThreadSt := ⟨0, false, none⟩

/-- Initial system state over a given cached token and expiry. -/
def initSys (tok : String) (expiry : Int) : SysSt :=
  ⟨⟨tok, expiry, 0⟩, initThread, initThread⟩

/-- Number of refresh network calls a thread has completed: one once it has
passed pc 1 on the near-expiry path, zero otherwise. -/
def refreshContrib (t : ThreadSt) : Nat :=
  if t.sawNear = true ∧ 2 ≤ t.pc then 1 else 0

/-- Book-keeping invariant on a single thread state. -/
def threadOk (t : ThreadSt) : Prop :=
  (t.pc = 0 → t.sawNear = false) ∧ (t.pc = 1 → t.sawNear = true)

/-- System invariant: the shared call counter equals the two threads
completed refresh contributions. -/
def sysInv (s : SysSt) : Prop :=
  threadOk s.a ∧ threadOk s.b ∧
    s.sh.calls = refreshContrib s.a + refreshContrib s.b

/-! ## Credential encryption wrapper (src/config.py) -/

/-- The seven characters of the Fernet ciphertext marker "gAAAAAB". -/
def fernetMagicChars : List Char := ['g', 'A', 'A', 'A', 'A', 'A', 'B']

/-- The check `decrypted.startswith("gAAAAAB")` from config.py line 245. -/
def startsWithFernetMagic (s : String) : Bool :=
  fernetMagicChars.isPrefixOf s.data

/-- Abstract model of the external Fernet cipher held in
`ConfigManager._fernet` (the cryptography library is outside this
repository): `enc` encrypts, `dec` decrypts and returns `none` exactly when
`_fernet.decrypt` raises.  `round` is the cipher contract that decryption
inverts encryption under the same key, and `magic` records that every
Fernet ciphertext starts with the version marker whose base64 form is
"gAAAAAB". -/
structure FernetModel where
  enc : String → String
  dec : String → Option String
  round : ∀ s, dec (enc s) = some s
  magic : ∀ s, startsWithFernetMagic (enc s) = true

/-- `ConfigManager.encrypt` (config.py lines 238-239). -/
def ConfigManager.encrypt (F : FernetModel) (data : String) : String :=
  F.enc data

/-- `ConfigManager.decrypt` (config.py lines 241-254): decrypt; if the
plaintext still looks Fernet-encrypted, try a second decryption and fall
back to the single decryption when that fails; if the first decryption
fails, return the input unchanged (legacy plain-text migration). -/
def ConfigManager.decrypt (F : FernetModel) (encrypted : String) : String :=
  match F.dec encrypted with
  | none => encrypted
  | some decrypted =>
    if startsWithFernetMagic decrypted then
      match F.dec decrypted with
      | some d2 => d2
      | none => decrypted
    else decrypted

/-- Concrete run used to exhibit the failure of refresh mutual exclusion:
both threads evaluate the expiry check before either refreshes (schedule
A, B, A, A, B, B), starting from a token whose expiry has passed, with the
endpoint returning short-lived tokens "t0", "t1", ... -/
def c9Run : SysSt :=
  runSched 0 (fun k => ("t" ++ toString k, 100))
    [true, false, true, true, false, false] (initSys "old" 0)

/-- A concrete cipher satisfying the Fernet contract, used to instantiate
theorems about the wrapper on computable inputs: encryption prepends the
marker, decryption strips it and fails on inputs that do not carry it. -/
def toyFernet : FernetModel where
  enc s := String.mk (fernetMagicChars ++ s.data)
  dec s :=
    if startsWithFernetMagic s then some (String.mk (s.data.drop 7)) else none
  round s := by
    have hpre : startsWithFernetMagic (String.mk (fernetMagicChars ++ s.data)) = true := by
      simp [startsWithFernetMagic, List.isPrefixOf_iff_prefix]
    simp [hpre]
    have : (fernetMagicChars ++ s.data).drop 7 = s.data := by
      have h7 : 7 = fernetMagicChars.length := rfl
      rw [h7, List.drop_left]
    simp [this]
  magic s := by
    simp [startsWithFernetMagic, List.isPrefixOf_iff_prefix]

end EmailSync

namespace EmailSync

/-- Claim C4: a call to `get_valid_token` with a cached token whose recorded
expiry is more than the ten-minute safety margin in the future returns the
cached access token with zero network requests; when the recorded expiry is
within the margin, any token that is returned is one produced by a refresh
(or, for client credentials grants, a re-acquisition) network call that
completed first. -/
theorem c4_get_valid_token_margin (st : TokensRecord) (now expiry : Int)
    (refreshResp : Option (String × Int × Option String))
    (acquireResp : Option (String × Int)) (tok : String)
    (hTok : st.accessToken = some tok) (hNe : tok ≠ "")
    (hExp : st.expiresAt = some (some expiry)) :
    (now < expiry - 600 →
      get_valid_token st now refreshResp acquireResp = (some tok, st, 0)) ∧
    (now ≥ expiry - 600 →
      ∀ t, (get_valid_token st now refreshResp acquireResp).1 = some t →
        (get_valid_token st now refreshResp acquireResp).2.2 = 1 ∧
        ((st.grantType = some "client_credentials" ∧
            ∃ p, acquireResp = some p ∧ t = p.1) ∨
         (st.grantType ≠ some "client_credentials" ∧
            ∃ q, refreshResp = some q ∧ t = q.1))) := by
  have hF1 : falsyStr (some tok) = false := by
    simpa [falsyStr] using hNe
  have hFalsy : falsyStr st.accessToken = false := by
    rw [hTok]; exact hF1
  constructor
  · intro hLt
    have hnot : ¬ now ≥ expiry - 600 := by omega
    simp [get_valid_token, hFalsy, hExp, hTok, hF1, hnot]
  · intro hGe t hSome
    by_cases hGrant : st.grantType = some "client_credentials"
    · cases acquireResp with
      | none =>
        exfalso
        simp [get_valid_token, hFalsy, hExp, hGe, hGrant,
          refresh_client_credentials_token, acquire_token] at hSome
      | some p =>
        have : t = p.1 ∧
            (get_valid_token st now refreshResp (some p)).2.2 = 1 := by
          simp [get_valid_token, hFalsy, hExp, hGe, hGrant,
            refresh_client_credentials_token, acquire_token] at hSome ⊢
          exact hSome.symm
        exact ⟨this.2, Or.inl ⟨hGrant, p, rfl, this.1⟩⟩
    · by_cases hRt : falsyStr st.refreshTokenValue
      · exfalso
        simp [get_valid_token, hFalsy, hExp, hGe, hGrant,
          refresh_token, hRt] at hSome
      · cases refreshResp with
        | none =>
          exfalso
          simp [get_valid_token, hFalsy, hExp, hGe, hGrant,
            refresh_token, hRt] at hSome
        | some q =>
          have : t = q.1 ∧
              (get_valid_token st now (some q) acquireResp).2.2 = 1 := by
            simp [get_valid_token, hFalsy, hExp, hGe, hGrant,
              refresh_token, hRt] at hSome ⊢
            exact hSome.symm
          exact ⟨this.2, Or.inr ⟨hGrant, q, rfl, this.1⟩⟩

/-- Witness for C4 at a concrete state: a token expiring at instant 10000
queried at instant 0 is served from cache, and the same record queried at
instant 9600 returns only the freshly refreshed token after one network
call. -/
theorem c4_get_valid_token_margin_witness :
    get_valid_token
        ⟨some "cached", some (some 10000), some "rt", none⟩ 0
        (some ("fresh", 3600, none)) none =
      (some "cached", ⟨some "cached", some (some 10000), some "rt", none⟩, 0) ∧
    (get_valid_token
        ⟨some "cached", some (some 10000), some "rt", none⟩ 9600
        (some ("fresh", 3600, none)) none).1 = some "fresh" ∧
    (get_valid_token
        ⟨some "cached", some (some 10000), some "rt", none⟩ 9600
        (some ("fresh", 3600, none)) none).2.2 = 1 := by
  refine ⟨?_, ?_, ?_⟩
  · exact (c4_get_valid_token_margin
      ⟨some "cached", some (some 10000), some "rt", none⟩ 0 10000
      (some ("fresh", 3600, none)) none "cached" rfl (by decide) rfl).1
      (by decide)
  · decide
  · exact ((c4_get_valid_token_margin
      ⟨some "cached", some (some 10000), some "rt", none⟩ 9600 10000
      (some ("fresh", 3600, none)) none "cached" rfl (by decide) rfl).2
      (by decide) "fresh" (by decide)).1

/-- One interleaving step preserves the thread book-keeping and moves the
shared call counter by exactly the stepped thread refresh contribution. -/
theorem threadStep_inv (now : Int) (fresh : Nat → String × Int)
    (sh : SharedSt) (t : ThreadSt) (h : threadOk t) :
    threadOk (threadStep now fresh sh t).2 ∧
      (threadStep now fresh sh t).1.calls + refreshContrib t =
        sh.calls + refreshContrib (threadStep now fresh sh t).2 := by
  obtain ⟨h0, h1⟩ := h
  obtain ⟨pc, sn, ret⟩ := t
  cases pc with
  | zero =>
    have hsn : sn = false := h0 rfl
    subst hsn
    by_cases hn : now ≥ sh.expiresAt - 600 <;>
      simp [threadStep, hn, threadOk, refreshContrib]
  | succ pc1 =>
    cases pc1 with
    | zero =>
      have hsn : sn = true := h1 rfl
      subst hsn
      simp [threadStep, threadOk, refreshContrib]
    | succ pc2 =>
      cases pc2 with
      | zero =>
        cases sn <;> simp [threadStep, threadOk, refreshContrib]
      | succ n =>
        cases sn <;> simp [threadStep, threadOk, refreshContrib]

/-- The system invariant is preserved by any scheduler step. -/
theorem sysStep_inv (now : Int) (fresh : Nat → String × Int) (s : SysSt)
    (tid : Bool) (h : sysInv s) : sysInv (sysStep now fresh s tid) := by
  obtain ⟨ha, hb, hc⟩ := h
  cases tid with
  | true =>
    obtain ⟨hok, heq⟩ := threadStep_inv now fresh s.sh s.a ha
    show sysInv ⟨(threadStep now fresh s.sh s.a).1,
      (threadStep now fresh s.sh s.a).2, s.b⟩
    refine ⟨hok, hb, ?_⟩
    show (threadStep now fresh s.sh s.a).1.calls =
      refreshContrib (threadStep now fresh s.sh s.a).2 + refreshContrib s.b
    omega
  | false =>
    obtain ⟨hok, heq⟩ := threadStep_inv now fresh s.sh s.b hb
    show sysInv ⟨(threadStep now fresh s.sh s.b).1, s.a,
      (threadStep now fresh s.sh s.b).2⟩
    refine ⟨ha, hok, ?_⟩
    show (threadStep now fresh s.sh s.b).1.calls =
      refreshContrib s.a + refreshContrib (threadStep now fresh s.sh s.b).2
    omega

/-- The system invariant holds after running any schedule from a state
satisfying it. -/
theorem runSched_inv (now : Int) (fresh : Nat → String × Int)
    (sched : List Bool) (s : SysSt) (h : sysInv s) :
    sysInv (runSched now fresh sched s) := by
  induction sched generalizing s with
  | nil => exact h
  | cons tid rest ih => exact ih _ (sysStep_inv now fresh s tid h)

/-- Claim C9, counterexample: with the cached token within the safety
margin and the interleaving in which both threads evaluate the expiry check
before either refresh completes, two refresh network calls are issued, not
exactly one, and the two threads return different tokens. -/
theorem c9_refresh_not_mutually_exclusive_counterexample :
    c9Run.a.sawNear = true ∧ c9Run.b.sawNear = true ∧
    c9Run.a.pc = 3 ∧ c9Run.b.pc = 3 ∧
    c9Run.sh.calls = 2 ∧ ¬ c9Run.sh.calls = 1 ∧
    c9Run.a.ret = some "t0" ∧ c9Run.b.ret = some "t1" := by
  decide

/-- Claim C9, amended: oauth.py takes no lock, so refresh for an identity is
not mutually exclusive.  Every thread that observes the cached token within
the safety margin issues its own refresh network call: whenever both
threads of a completed schedule observed near-expiry, exactly two refresh
calls were issued (one per thread), not one. -/
theorem c9_concurrent_refresh_call_count (sched : List Bool) (tok : String)
    (expiry now : Int) (fresh : Nat → String × Int)
    (hA : (runSched now fresh sched (initSys tok expiry)).a.sawNear = true)
    (hB : (runSched now fresh sched (initSys tok expiry)).b.sawNear = true)
    (hA2 : 2 ≤ (runSched now fresh sched (initSys tok expiry)).a.pc)
    (hB2 : 2 ≤ (runSched now fresh sched (initSys tok expiry)).b.pc) :
    (runSched now fresh sched (initSys tok expiry)).sh.calls = 2 := by
  have hinv : sysInv (runSched now fresh sched (initSys tok expiry)) := by
    refine runSched_inv now fresh sched _ ?_
    refine ⟨⟨fun _ => rfl, fun h => by simp [initSys, initThread] at h⟩,
      ⟨fun _ => rfl, fun h => by simp [initSys, initThread] at h⟩, rfl⟩
  obtain ⟨-, -, hc⟩ := hinv
  rw [hc, refreshContrib, refreshContrib, if_pos ⟨hA, hA2⟩, if_pos ⟨hB, hB2⟩]

/-- Witness for the amended C9 theorem at the concrete schedule of the
counterexample run. -/
theorem c9_concurrent_refresh_call_count_witness :
    (runSched 0 (fun k => ("t" ++ toString k, 100))
        [true, false, true, true, false, false] (initSys "old" 0)).sh.calls = 2 :=
  c9_concurrent_refresh_call_count
    [true, false, true, true, false, false] "old" 0 0
    (fun k => ("t" ++ toString k, 100))
    (by decide) (by decide) (by decide) (by decide)

/-- Summing a constant over a `range'` block. -/
theorem sum_map_const_range' (c : Nat) :
    ∀ r k : Nat, ((List.range' k r).map (fun _ => c)).sum = r * c := by
  intro r
  induction r with
  | zero => intro k; simp
  | succ n ih =>
    intro k
    rw [List.range'_succ]
    simp only [List.map_cons, List.sum_cons, ih (k + 1)]
    ring

/-- One unfolding step of the retry loop on a raising attempt that is not
the last allowed one. -/
theorem retry_loop_err_step (att : Nat → Except String (Bool × String) × Nat)
    (maxRetries k r : Nat) (e' : String) (L' : Nat)
    (hk : att k = (.error e', L')) (hr : ¬ r = 0) :
    retry_loop att maxRetries k (r + 1) =
      ((retry_loop att maxRetries (k + 1) r).1,
        (retry_loop att maxRetries (k + 1) r).2.1 + 1,
        2 ^ k :: (retry_loop att maxRetries (k + 1) r).2.2.1,
        L' + (retry_loop att maxRetries (k + 1) r).2.2.2) := by
  simp only [retry_loop, hk, if_neg hr]

/-- Behaviour of the retry loop when every attempt raises: all `remaining`
attempts run, a backoff delay of `2 ^ attempt` is slept after every failed
attempt except the last, and the final message reports the attempt cap and
the last exception. -/
theorem retry_loop_all_fail (att : Nat → Except String (Bool × String) × Nat)
    (e : Nat → String) (L : Nat → Nat) (maxRetries : Nat)
    (hAtt : ∀ j, att j = (.error (e j), L j)) :
    ∀ r, 1 ≤ r → ∀ k,
      retry_loop att maxRetries k r =
        ((false, "Sync failed after " ++ toString maxRetries ++ " attempts: "
            ++ e (k + r - 1)),
          r, (List.range' k (r - 1)).map (fun j => 2 ^ j),
          ((List.range' k r).map L).sum) := by
  intro r
  induction r with
  | zero => intro h k; exact absurd h (by omega)
  | succ n ih =>
    intro _ k
    by_cases hn : n = 0
    · subst hn
      simp [retry_loop, hAtt k, List.range'_one]
    · obtain ⟨m, rfl⟩ : ∃ m, n = m + 1 := ⟨n - 1, by omega⟩
      have hrec := ih (by omega) (k + 1)
      have hidx : k + 1 + (m + 1) - 1 = k + (m + 1 + 1) - 1 := by omega
      have h2 : List.range' k (m + 1 + 1 - 1) =
          k :: List.range' (k + 1) (m + 1 - 1) := by
        simp [List.range'_succ]
      have h3 : List.range' k (m + 1 + 1) = k :: List.range' (k + 1) (m + 1) :=
        List.range'_succ k (m + 1) 1
      rw [retry_loop_err_step att maxRetries k (m + 1) (e k) (L k) (hAtt k) hn,
        hrec, h2, h3]
      simp only [List.map_cons, List.sum_cons, hidx]

/-- Claim C6: a transfer task whose every attempt raises a failure is
retried exactly max_retries times; the backoff delay slept after failed
attempt number `attempt` is 2 ^ attempt seconds, so the delays between
consecutive attempts form the strictly increasing sequence 2, 4, 8, ...;
and the final returned failure message mentions max_retries attempts. -/
theorem c6_retry_bound (acct : Account) (oauthTok : Option String)
    (rc : Nat → Int) (processed total maxRetries : Nat)
    (hConn : test_connection acct true oauthTok = true)
    (hMax : 1 ≤ maxRetries) (hRc : ∀ k, rc k ≠ 0) :
    run_imapsync_with_retry true acct true oauthTok rc processed total
        maxRetries =
      ((false, "Sync failed after " ++ toString maxRetries ++ " attempts: " ++
          ("Sync failed with exit code " ++ toString (rc maxRetries))),
        maxRetries,
        (List.range' 1 (maxRetries - 1)).map (fun j => 2 ^ j), maxRetries) ∧
    List.Pairwise (fun a b => a < b)
      ((List.range' 1 (maxRetries - 1)).map (fun j => 2 ^ j)) := by
  have hOnce : ∀ j, run_imapsync_once true acct oauthTok (rc j) processed total =
      (.error ("Sync failed with exit code " ++ toString (rc j)), 1) := by
    intro j
    have hno : (acct.is_office365 && oauthTok.isNone) = false := by
      cases ho : acct.is_office365 with
      | false => simp
      | true =>
        simp [test_connection, ho] at hConn
        cases oauthTok with
        | none => simp at hConn
        | some t => simp
    simp [run_imapsync_once, hno, hRc j]
  constructor
  · unfold run_imapsync_with_retry
    rw [hConn]
    have hskip : (!acct.is_office365 && !true) = false := by simp
    rw [hskip]
    simp only [Bool.not_true, Bool.false_eq_true, if_false]
    have := retry_loop_all_fail
      (fun k => run_imapsync_once true acct oauthTok (rc k) processed total)
      (fun j => "Sync failed with exit code " ++ toString (rc j))
      (fun _ => 1) maxRetries (fun j => hOnce j) maxRetries hMax 1
    rw [this]
    have hidx : 1 + maxRetries - 1 = maxRetries := by omega
    rw [hidx, sum_map_const_range' 1 maxRetries 1]
    simp
  · have hp : List.Pairwise (fun a b : Nat => a < b)
        (List.range' 1 (maxRetries - 1)) :=
      List.pairwise_lt_range' 1 (maxRetries - 1)
    exact List.Pairwise.map (fun j => 2 ^ j)
      (fun a b hab => Nat.pow_lt_pow_right (by norm_num) hab) hp

/-- Witness for C6 at a concrete account, three attempts all exiting with
code 1: three attempts, delays 2 then 4 seconds, failure message naming
three attempts. -/
theorem c6_retry_bound_witness :
    run_imapsync_with_retry true ⟨"u@example.com", false, "pw", "d@example.com"⟩
        true (some "t") (fun _ => 1) 0 0 3 =
      ((false, "Sync failed after 3 attempts: Sync failed with exit code 1"),
        3, [2, 4], 3) := by
  have h := (c6_retry_bound ⟨"u@example.com", false, "pw", "d@example.com"⟩
    (some "t") (fun _ => 1) 0 0 3 (by decide) (by decide)
    (fun k => one_ne_zero)).1
  rw [h]
  decide

/-- Claim C5, counterexample: with the transfer tool executable missing,
the account is not aborted fatally: the attempt is repeated three times
with backoff delays 2 and 4 seconds, the final message is the generic
after-N-attempts failure, and a second configured account is still
attempted by the run. -/
theorem c5_tool_missing_not_fatal_counterexample :
    run_imapsync_with_retry false
        ⟨"u@example.com", false, "pw", "d@example.com"⟩
        true none (fun _ => 1) 0 0 3 =
      ((false,
        "Sync failed after 3 attempts: imapsync not found. Please install it and ensure it is in PATH."),
        3, [2, 4], 0) ∧
    (sync_accounts true
        [⟨"u@example.com", false, "pw", "d@example.com"⟩,
          ⟨"v@example.com", false, "pw", "e@example.com"⟩]
        true false true none (fun _ _ => 1) (fun _ => some "dp") 3
        (fun _ => false)).attempted = 2 := by
  decide

/-- The account loop attempts every account that has a destination
password when the shutdown flag never trips. -/
theorem sync_accounts_loop_attempted (avail oauthPresent : Bool)
    (oauthTok : Option String) (rc : Nat → Nat → Int)
    (destPasswords : String → Option String) (maxRetries : Nat) :
    ∀ (accounts : List Account) (i : Nat),
      (sync_accounts_loop avail oauthPresent oauthTok rc destPasswords
          maxRetries (fun _ => false) accounts i).1 =
        (accounts.filter
          (fun a => (destPasswords a.dest_email).isSome)).length := by
  intro accounts
  induction accounts with
  | nil => intro i; rfl
  | cons acct rest ih =>
    intro i
    cases hpw : destPasswords acct.dest_email with
    | none => simp [sync_accounts_loop, hpw, ih (i + 1)]
    | some pw => simp [sync_accounts_loop, hpw, ih (i + 1)]

/-- Claim C5, amended: when the transfer tool executable cannot be located,
`_run_imapsync` raises RuntimeError, which the retry wrapper catches like
any other failure: the account is retried max_retries times with the usual
backoff delays and zero tool launches, the final failure mentions
max_retries attempts, and the run is not aborted — every further account
with a destination password is still attempted.  No fatal classification
exists in the code; tool-not-found is retryable exactly like any other
nonzero outcome. -/
theorem c5_tool_missing_retried_and_run_continues
    (acct : Account) (accounts : List Account) (oauthPresent : Bool)
    (oauthTok : Option String) (rc : Nat → Int) (rcs : Nat → Nat → Int)
    (destPasswords : String → Option String) (processed total maxRetries : Nat)
    (hConn : test_connection acct oauthPresent oauthTok = true)
    (hNoSkip : acct.is_office365 = true ∨ oauthPresent = true)
    (hMax : 1 ≤ maxRetries) (hne : accounts.isEmpty = false) :
    run_imapsync_with_retry false acct oauthPresent oauthTok rc processed
        total maxRetries =
      ((false, "Sync failed after " ++ toString maxRetries ++ " attempts: " ++
          "imapsync not found. Please install it and ensure it is in PATH."),
        maxRetries, (List.range' 1 (maxRetries - 1)).map (fun j => 2 ^ j), 0) ∧
    (sync_accounts true accounts true false oauthPresent oauthTok rcs
        destPasswords maxRetries (fun _ => false)).attempted =
      (accounts.filter
        (fun a => (destPasswords a.dest_email).isSome)).length := by
  constructor
  · unfold run_imapsync_with_retry
    rw [hConn]
    have hskip : (!acct.is_office365 && !oauthPresent) = false := by
      rcases hNoSkip with h | h <;> simp [h]
    rw [hskip]
    simp only [Bool.not_true, Bool.false_eq_true, if_false]
    have hOnce : ∀ j, run_imapsync_once false acct oauthTok (rc j)
        processed total =
        (.error "imapsync not found. Please install it and ensure it is in PATH.",
          0) := by
      intro j; rfl
    have := retry_loop_all_fail
      (fun k => run_imapsync_once false acct oauthTok (rc k) processed total)
      (fun _ => "imapsync not found. Please install it and ensure it is in PATH.")
      (fun _ => 0) maxRetries hOnce maxRetries hMax 1
    rw [this, sum_map_const_range' 0 maxRetries 1]
    simp
  · unfold sync_accounts
    rw [hne]
    simp only [Bool.not_true, Bool.not_false, Bool.false_eq_true, if_false,
      if_true]
    exact sync_accounts_loop_attempted false oauthPresent oauthTok rcs
      destPasswords maxRetries accounts 0

/-- Witness for the amended C5 theorem at a concrete single-account run
with the tool missing. -/
theorem c5_tool_missing_retried_and_run_continues_witness :
    run_imapsync_with_retry false
        ⟨"w@example.com", false, "pw", "f@example.com"⟩
        true none (fun _ => 2) 0 0 3 =
      ((false,
        "Sync failed after 3 attempts: imapsync not found. Please install it and ensure it is in PATH."),
        3, [2, 4], 0) ∧
    (sync_accounts true [⟨"w@example.com", false, "pw", "f@example.com"⟩]
        true false true none (fun _ _ => 2) (fun _ => some "dp") 3
        (fun _ => false)).attempted = 1 := by
  have h := c5_tool_missing_retried_and_run_continues
    ⟨"w@example.com", false, "pw", "f@example.com"⟩
    [⟨"w@example.com", false, "pw", "f@example.com"⟩]
    true none (fun _ => 2) (fun _ _ => 2) (fun _ => some "dp") 0 0 3
    (by decide) (Or.inr rfl) (by decide) (by decide)
  refine ⟨?_, ?_⟩
  · rw [h.1]; decide
  · rw [h.2]; decide

/-- Claim C8: in both orchestrators, a failing destination reachability
probe (performed after the configuration guards, before any account work)
aborts the run with zero external tool launches and zero accounts
attempted; the probe itself ran exactly once. -/
theorem c8_probe_failure_zero_invocations
    (accounts : List Account) (avail oauthPresent : Bool)
    (oauthTok : Option String) (rc : Nat → Nat → Int)
    (destPasswords : String → Option String) (maxRetries : Nat)
    (shutdownAfter : Nat → Bool) (accountWork : Nat → Nat)
    (hne : accounts.isEmpty = false) :
    sync_accounts true accounts false avail oauthPresent oauthTok rc
        destPasswords maxRetries shutdownAfter = ⟨1, 0, 0⟩ ∧
    sync_accounts_parallel true accounts false destPasswords accountWork =
      ⟨1, 0, 0⟩ := by
  constructor
  · unfold sync_accounts
    rw [hne]
    simp
  · unfold sync_accounts_parallel
    rw [hne]
    simp

/-- Witness for C8 at a concrete one-account configuration. -/
theorem c8_probe_failure_zero_invocations_witness :
    sync_accounts true [⟨"u@example.com", false, "pw", "d@example.com"⟩]
        false true true none (fun _ _ => 0) (fun _ => some "dp") 3
        (fun _ => false) = ⟨1, 0, 0⟩ ∧
    sync_accounts_parallel true
        [⟨"u@example.com", false, "pw", "d@example.com"⟩] false
        (fun _ => some "dp") (fun _ => 7) = ⟨1, 0, 0⟩ :=
  c8_probe_failure_zero_invocations
    [⟨"u@example.com", false, "pw", "d@example.com"⟩] true true none
    (fun _ _ => 0) (fun _ => some "dp") 3 (fun _ => false) (fun _ => 7)
    (by decide)

/-- Claim C3: whenever a token-expiration marker was observed in the child
output before exit, the invocation outcome is the failure "Token expired"
for every exit code, the code 0 included: the marker takes precedence over
the exit code. -/
theorem c3_token_marker_precedence (lines : List String) (returncode : Int)
    (errorsCount syncedCount : Nat) (failedFolders : List String)
    (h : tokenExpiredSeen lines = true) :
    classify_outcome lines returncode errorsCount syncedCount failedFolders =
      ⟨false, "Token expired", failedFolders⟩ := by
  simp [classify_outcome, h]

/-- Witness for C3: a marker line together with exit code 0 still yields
the token-expired failure. -/
theorem c3_token_marker_precedence_witness :
    classify_outcome ["* BYE AccessTokenExpired"] 0 5 2 ["A"] =
      ⟨false, "Token expired", ["A"]⟩ :=
  c3_token_marker_precedence ["* BYE AccessTokenExpired"] 0 5 2 ["A"]
    (by decide)

/-- Claim C7: whenever folder discovery yields the empty list, the batch
scheduler performs exactly one whole-account transfer invocation: no batch
invocations and no retries; and discovery yields the empty list on every
error (timeout included) instead of raising. -/
theorem c7_empty_discovery_whole_account
    (raw : Except String (List String)) (prevSynced : List String)
    (isOffice365 oauthPresent : Bool)
    (pass1Out retryOut : Nat → Except String FolderOutcome)
    (hEmpty : get_account_folders raw = []) :
    (sync_account_parallel (get_account_folders raw) prevSynced isOffice365
        oauthPresent pass1Out retryOut).wholeAccountCalls = 1 ∧
    (sync_account_parallel (get_account_folders raw) prevSynced isOffice365
        oauthPresent pass1Out retryOut).pass1 = [] ∧
    (sync_account_parallel (get_account_folders raw) prevSynced isOffice365
        oauthPresent pass1Out retryOut).retried = [] ∧
    (∀ e, get_account_folders (.error e) = []) := by
  rw [hEmpty]
  exact ⟨rfl, rfl, rfl, fun e => rfl⟩

/-- Witness for C7: a discovery timeout leads to the single whole-account
fallback. -/
theorem c7_empty_discovery_whole_account_witness :
    (sync_account_parallel (get_account_folders (.error "timeout")) []
        false false (fun _ => .ok ⟨true, "ok", []⟩)
        (fun _ => .ok ⟨true, "ok", []⟩)).wholeAccountCalls = 1 ∧
    (sync_account_parallel (get_account_folders (.error "timeout")) []
        false false (fun _ => .ok ⟨true, "ok", []⟩)
        (fun _ => .ok ⟨true, "ok", []⟩)).pass1 = [] ∧
    (sync_account_parallel (get_account_folders (.error "timeout")) []
        false false (fun _ => .ok ⟨true, "ok", []⟩)
        (fun _ => .ok ⟨true, "ok", []⟩)).retried = [] ∧
    (∀ e, get_account_folders (.error e) = []) :=
  c7_empty_discovery_whole_account (.error "timeout") [] false false
    (fun _ => .ok ⟨true, "ok", []⟩) (fun _ => .ok ⟨true, "ok", []⟩) rfl

/-- Membership in the checkpoint union. -/
theorem mem_listUnion (a b : List String) (f : String) :
    f ∈ listUnion a b ↔ f ∈ a ∨ f ∈ b := by
  unfold listUnion
  by_cases hfa : f ∈ a
  · simp [hfa]
  · simp [List.mem_append, List.mem_filter, hfa]

/-- The checkpoint entry is touched by one completed future exactly on
success. -/
theorem pass1Step_synced (o : Bool) (st : Pass1St) (idx : Nat)
    (b : List String) (res : Except String FolderOutcome) :
    (pass1Step o st idx b res).synced =
      if pass1ResSucc res then listUnion st.synced b else st.synced := by
  cases res with
  | error e => rfl
  | ok out =>
    by_cases hs : out.success
    · simp [pass1Step, pass1ResSucc, hs]
    · simp only [pass1Step, pass1ResSucc, hs, Bool.false_eq_true, if_false]
      split
      · split <;> rfl
      · rfl

/-- The `failed_batches` entries appended by one completed future. -/
theorem pass1Step_failed (o : Bool) (st : Pass1St) (idx : Nat)
    (b : List String) (res : Except String FolderOutcome) :
    (pass1Step o st idx b res).failed = st.failed ++ pass1Adds o idx b res := by
  cases res with
  | error e => rfl
  | ok out =>
    by_cases hs : out.success
    · simp [pass1Step, pass1Adds, hs]
    · simp only [pass1Step, pass1Adds, hs, Bool.false_eq_true, if_false]
      split
      · split <;> simp
      · simp

/-- One save happens per completed future exactly on success. -/
theorem pass1Step_saves (o : Bool) (st : Pass1St) (idx : Nat)
    (b : List String) (res : Except String FolderOutcome) :
    (pass1Step o st idx b res).saves =
      st.saves + (if pass1ResSucc res then 1 else 0) := by
  cases res with
  | error e => rfl
  | ok out =>
    by_cases hs : out.success
    · simp [pass1Step, pass1ResSucc, hs]
    · simp only [pass1Step, pass1ResSucc, hs, Bool.false_eq_true, if_false]
      split
      · split <;> rfl
      · rfl

/-- Every appended `failed_batches` entry carries the index and folders of
its batch, and only batches whose invocation was not classified a success
are appended. -/
theorem pass1Adds_mem (o : Bool) (idx : Nat) (b : List String)
    (res : Except String FolderOutcome) :
    ∀ x ∈ pass1Adds o idx b res,
      x.1 = idx ∧ x.2.1 = b ∧ pass1ResSucc res = false := by
  intro x hx
  cases res with
  | error e =>
    obtain rfl : x = (idx, b, e) := by simpa [pass1Adds] using hx
    exact ⟨rfl, rfl, rfl⟩
  | ok out =>
    by_cases hs : out.success
    · simp [pass1Adds, hs] at hx
    · simp only [pass1Adds, hs, Bool.false_eq_true, if_false] at hx
      have hsucc : pass1ResSucc (Except.ok out) = false := by
        simp [pass1ResSucc, hs]
      split at hx
      · split at hx
        · obtain rfl : x = (idx, b, out.message) := by simpa using hx
          exact ⟨rfl, rfl, hsucc⟩
        · simp at hx
          rcases hx with rfl | rfl
          · exact ⟨rfl, rfl, hsucc⟩
          · exact ⟨rfl, rfl, hsucc⟩
      · obtain rfl : x = (idx, b, out.message) := by simpa using hx
        exact ⟨rfl, rfl, hsucc⟩

/-- Membership in the checkpoint entry after the whole pass-1 loop: a
folder is present exactly when it was present initially or belongs to a
batch whose invocation was classified a success. -/
theorem pass1Run_synced_mem (o : Bool)
    (out : Nat → Except String FolderOutcome) :
    ∀ (l : List (Nat × List String)) (st : Pass1St) (f : String),
      f ∈ (pass1Run o out l st).synced ↔
        f ∈ st.synced ∨ ∃ ib ∈ l, pass1Succ out ib.1 = true ∧ f ∈ ib.2 := by
  intro l
  induction l with
  | nil => intro st f; simp [pass1Run]
  | cons ib rest ih =>
    intro st f
    have hcons : pass1Run o out (ib :: rest) st =
        pass1Run o out rest (pass1Step o st ib.1 ib.2 (out ib.1)) := rfl
    rw [hcons, ih]
    have hst : f ∈ (pass1Step o st ib.1 ib.2 (out ib.1)).synced ↔
        f ∈ st.synced ∨ (pass1Succ out ib.1 = true ∧ f ∈ ib.2) := by
      rw [pass1Step_synced]
      unfold pass1Succ
      by_cases h : pass1ResSucc (out ib.1) = true
      · rw [if_pos h, mem_listUnion]
        simp [h]
      · rw [if_neg h]
        simp [h]
    rw [hst]
    simp only [List.mem_cons]
    constructor
    · rintro ((hf | ⟨hsucc, hfb⟩) | ⟨ib2, hib2, h1, h2⟩)
      · exact Or.inl hf
      · exact Or.inr ⟨ib, Or.inl rfl, hsucc, hfb⟩
      · exact Or.inr ⟨ib2, Or.inr hib2, h1, h2⟩
    · rintro (hf | ⟨ib2, hib2 | hib2, h1, h2⟩)
      · exact Or.inl (Or.inl hf)
      · subst hib2; exact Or.inl (Or.inr ⟨h1, h2⟩)
      · exact Or.inr ⟨ib2, hib2, h1, h2⟩

/-- Every entry of `failed_batches` after the pass-1 loop comes from a
batch whose invocation was not classified a success. -/
theorem pass1Run_failed_mem (o : Bool)
    (out : Nat → Except String FolderOutcome) :
    ∀ (l : List (Nat × List String)) (st : Pass1St)
      (x : Nat × List String × String),
      x ∈ (pass1Run o out l st).failed →
        x ∈ st.failed ∨
          ∃ ib ∈ l, x.1 = ib.1 ∧ x.2.1 = ib.2 ∧ pass1Succ out ib.1 = false := by
  intro l
  induction l with
  | nil => intro st x h; exact Or.inl h
  | cons ib rest ih =>
    intro st x h
    have hcons : pass1Run o out (ib :: rest) st =
        pass1Run o out rest (pass1Step o st ib.1 ib.2 (out ib.1)) := rfl
    rw [hcons] at h
    rcases ih _ x h with hmem | ⟨ib2, hib2, h1, h2, h3⟩
    · rw [pass1Step_failed] at hmem
      rcases List.mem_append.mp hmem with hmem | hmem
      · exact Or.inl hmem
      · obtain ⟨e1, e2, e3⟩ := pass1Adds_mem o ib.1 ib.2 (out ib.1) x hmem
        exact Or.inr ⟨ib, List.mem_cons_self ib rest, e1, e2, e3⟩
    · exact Or.inr ⟨ib2, List.mem_cons_of_mem ib hib2, h1, h2, h3⟩

/-- The number of checkpoint saves made by the pass-1 loop equals the
number of batches classified a success. -/
theorem pass1Run_saves (o : Bool) (out : Nat → Except String FolderOutcome) :
    ∀ (l : List (Nat × List String)) (st : Pass1St),
      (pass1Run o out l st).saves =
        st.saves + l.countP (fun ib => pass1Succ out ib.1) := by
  intro l
  induction l with
  | nil => intro st; simp [pass1Run]
  | cons ib rest ih =>
    intro st
    have hcons : pass1Run o out (ib :: rest) st =
        pass1Run o out rest (pass1Step o st ib.1 ib.2 (out ib.1)) := rfl
    rw [hcons, ih, pass1Step_saves, List.countP_cons]
    unfold pass1Succ
    by_cases h : pass1ResSucc (out ib.1) = true
    · simp [h]; omega
    · simp [h]

/-- Membership in the checkpoint entry after the serial retry loop: a
folder is present exactly when it was present before the loop or belongs
to a retry invocation classified a success. -/
theorem retryRun_synced_mem (out : Nat → Except String FolderOutcome) :
    ∀ (entries : List (Nat × List String × String)) (j : Nat)
      (synced : List String) (saves : Nat) (f : String),
      f ∈ (retryRun out j entries synced saves).1 ↔
        f ∈ synced ∨ ∃ ev ∈ (retryRun out j entries synced saves).2.1,
          ev.success = true ∧ f ∈ ev.folders := by
  intro entries
  induction entries with
  | nil => intro j synced saves f; simp [retryRun]
  | cons entry rest ih =>
    intro j synced saves f
    cases hout : out j with
    | error e => simp [retryRun, hout]
    | ok o =>
      simp only [retryRun, hout]
      by_cases hs : o.success = true
      · rw [ih]
        simp only [hs, if_pos rfl, if_true, mem_listUnion, List.mem_cons]
        constructor
        · rintro ((hf | hfb) | ⟨ev, hev, h1, h2⟩)
          · exact Or.inl hf
          · exact Or.inr ⟨⟨entry.1, entry.2.1, true⟩, Or.inl rfl, rfl, hfb⟩
          · exact Or.inr ⟨ev, Or.inr hev, h1, h2⟩
        · rintro (hf | ⟨ev, hev | hev, h1, h2⟩)
          · exact Or.inl (Or.inl hf)
          · subst hev; exact Or.inl (Or.inr h2)
          · exact Or.inr ⟨ev, hev, h1, h2⟩
      · rw [ih]
        simp only [hs, Bool.false_eq_true, if_false, List.mem_cons]
        constructor
        · rintro (hf | ⟨ev, hev, h1, h2⟩)
          · exact Or.inl hf
          · exact Or.inr ⟨ev, Or.inr hev, h1, h2⟩
        · rintro (hf | ⟨ev, hev | hev, h1, h2⟩)
          · exact Or.inl hf
          · rw [hev] at h1; simp at h1
          · exact Or.inr ⟨ev, hev, h1, h2⟩

/-- The number of checkpoint saves made by the retry loop equals the
number of retry invocations classified a success. -/
theorem retryRun_saves (out : Nat → Except String FolderOutcome) :
    ∀ (entries : List (Nat × List String × String)) (j : Nat)
      (synced : List String) (saves : Nat),
      (retryRun out j entries synced saves).2.2.1 =
        saves + (retryRun out j entries synced saves).2.1.countP
          (fun ev => ev.success) := by
  intro entries
  induction entries with
  | nil => intro j synced saves; simp [retryRun]
  | cons entry rest ih =>
    intro j synced saves
    cases hout : out j with
    | error e => simp [retryRun, hout]
    | ok o =>
      simp only [retryRun, hout]
      rw [ih, List.countP_cons]
      by_cases hs : o.success = true
      · simp [hs]
        omega
      · simp [hs]

/-- Every retry invocation re-runs an entry of `failed_batches`. -/
theorem retryRun_events_from (out : Nat → Except String FolderOutcome) :
    ∀ (entries : List (Nat × List String × String)) (j : Nat)
      (synced : List String) (saves : Nat) (ev : RetryEvent),
      ev ∈ (retryRun out j entries synced saves).2.1 →
        ∃ m, (ev.batchIdx, ev.folders, m) ∈ entries := by
  intro entries
  induction entries with
  | nil => intro j synced saves ev h; simp [retryRun] at h
  | cons entry rest ih =>
    intro j synced saves ev h
    cases hout : out j with
    | error e =>
      simp [retryRun, hout] at h
      subst h
      exact ⟨entry.2.2, List.mem_cons_self entry rest⟩
    | ok o =>
      simp only [retryRun, hout, List.mem_cons] at h
      rcases h with h | h
      · subst h
        exact ⟨entry.2.2, List.mem_cons_self entry rest⟩
      · obtain ⟨m, hm⟩ := ih _ _ _ ev h
        exact ⟨m, List.mem_cons_of_mem entry hm⟩

/-- Claim C1, core statement over the batched branch: the persisted
checkpoint entry after the run contains exactly the previously
checkpointed folders plus the folders of invocations classified a success
(so batches terminated by the cooperative shutdown, which are classified
failures, contribute nothing); the number of checkpoint writes equals the
number of success classifications (a write happens only after a success);
and a batch classified a success in the pool pass is never re-invoked by
the retry loop. -/
theorem sync_account_batched_checkpoint (prevSynced : List String)
    (isOffice365 oauthPresent : Bool)
    (pass1Out retryOut : Nat → Except String FolderOutcome)
    (batches : List (Nat × List String)) (R : SchedResult)
    (hR : R = sync_account_batched prevSynced isOffice365 oauthPresent
      pass1Out retryOut batches) :
    (∀ f, f ∈ R.synced ↔ f ∈ prevSynced ∨
        (∃ p ∈ R.pass1, p.2.2 = true ∧ f ∈ p.2.1) ∨
        (∃ r ∈ R.retried, r.success = true ∧ f ∈ r.folders)) ∧
    R.saves = R.pass1.countP (fun p => p.2.2) +
      R.retried.countP (fun r => r.success) ∧
    (∀ p ∈ R.pass1, p.2.2 = true → ∀ r ∈ R.retried, r.batchIdx ≠ p.1) := by
  have hp1mem : ∀ f,
      (∃ p ∈ batches.map (fun ib => (ib.1, ib.2, pass1Succ pass1Out ib.1)),
          p.2.2 = true ∧ f ∈ p.2.1) ↔
        ∃ ib ∈ batches, pass1Succ pass1Out ib.1 = true ∧ f ∈ ib.2 := by
    intro f
    constructor
    · rintro ⟨p, hp, h1, h2⟩
      obtain ⟨ib, hib, rfl⟩ := List.mem_map.mp hp
      exact ⟨ib, hib, h1, h2⟩
    · rintro ⟨ib, hib, h1, h2⟩
      exact ⟨(ib.1, ib.2, pass1Succ pass1Out ib.1),
        List.mem_map.mpr ⟨ib, hib, rfl⟩, h1, h2⟩
  have hp1count :
      (batches.map (fun ib => (ib.1, ib.2, pass1Succ pass1Out ib.1))).countP
          (fun p => p.2.2) =
        batches.countP (fun ib => pass1Succ pass1Out ib.1) := by
    rw [List.countP_map]
    rfl
  have hfailed : ∀ x ∈ (pass1Run oauthPresent pass1Out batches
      ⟨prevSynced, [], 0, 0, 0⟩).failed,
      ∃ ib ∈ batches, x.1 = ib.1 ∧ x.2.1 = ib.2 ∧
        pass1Succ pass1Out ib.1 = false := by
    intro x hx
    rcases pass1Run_failed_mem oauthPresent pass1Out batches _ x hx with h | h
    · simp at h
    · exact h
  subst hR
  unfold sync_account_batched
  by_cases hcond : (!(pass1Run oauthPresent pass1Out batches
      ⟨prevSynced, [], 0, 0, 0⟩).failed.isEmpty && isOffice365 && oauthPresent)
      = true
  · rw [if_pos hcond]
    refine ⟨?_, ?_, ?_⟩
    · intro f
      show f ∈ (retryRun retryOut 0 _ _ _).1 ↔ _
      rw [retryRun_synced_mem, pass1Run_synced_mem]
      constructor
      · rintro ((hf | hb) | hr)
        · simp at hf; exact Or.inl hf
        · exact Or.inr (Or.inl ((hp1mem f).mpr hb))
        · exact Or.inr (Or.inr hr)
      · rintro (hf | hb | hr)
        · exact Or.inl (Or.inl (by simp [hf]))
        · exact Or.inl (Or.inr ((hp1mem f).mp hb))
        · exact Or.inr hr
    · show (retryRun retryOut 0 _ _ _).2.2.1 = _
      rw [retryRun_saves, pass1Run_saves, hp1count]
      simp
    · intro p hp hsucc r hr
      obtain ⟨m, hm⟩ := retryRun_events_from retryOut _ 0 _ _ r hr
      obtain ⟨ib2, hib2, e1, e2, e3⟩ := hfailed _ hm
      obtain ⟨ib, hib, rfl⟩ := List.mem_map.mp hp
      replace e1 : r.batchIdx = ib2.1 := e1
      replace hsucc : pass1Succ pass1Out ib.1 = true := hsucc
      intro hcontra
      replace hcontra : r.batchIdx = ib.1 := hcontra
      rw [hcontra] at e1
      rw [e1] at hsucc
      rw [e3] at hsucc
      exact Bool.false_ne_true hsucc
  · rw [if_neg hcond]
    refine ⟨?_, ?_, ?_⟩
    · intro f
      show f ∈ (pass1Run oauthPresent pass1Out batches _).synced ↔ _
      rw [pass1Run_synced_mem]
      constructor
      · rintro (hf | hb)
        · simp at hf; exact Or.inl hf
        · exact Or.inr (Or.inl ((hp1mem f).mpr hb))
      · rintro (hf | hb | hr)
        · exact Or.inl (by simp [hf])
        · exact Or.inr ((hp1mem f).mp hb)
        · simp at hr
    · show (pass1Run oauthPresent pass1Out batches _).saves = _
      rw [pass1Run_saves, hp1count]
      simp
    · intro p hp hsucc r hr
      simp at hr

/-- Claim C1: for a non-empty discovery result, the persisted checkpoint
entry produced by `sync_account_parallel` contains exactly the previously
checkpointed folders together with the folders of batch invocations
classified succeeded — none from batches still running or failed (in the
cooperative-shutdown scenario, terminated batches are classified failures,
so the checkpoint keeps exactly the batches that reached succeeded before
the trip); checkpoint writes happen only on success classifications, one
per success; and a batch classified succeeded in the pool pass is never
re-invoked (hence never re-saved) by the retry pass. -/
theorem c1_checkpoint_only_successful_batches (folders prevSynced : List String)
    (isOffice365 oauthPresent : Bool)
    (pass1Out retryOut : Nat → Except String FolderOutcome) (R : SchedResult)
    (hne : folders.isEmpty = false)
    (hR : R = sync_account_parallel folders prevSynced isOffice365
      oauthPresent pass1Out retryOut) :
    (∀ f, f ∈ R.synced ↔ f ∈ prevSynced ∨
        (∃ p ∈ R.pass1, p.2.2 = true ∧ f ∈ p.2.1) ∨
        (∃ r ∈ R.retried, r.success = true ∧ f ∈ r.folders)) ∧
    R.saves = R.pass1.countP (fun p => p.2.2) +
      R.retried.countP (fun r => r.success) ∧
    (∀ p ∈ R.pass1, p.2.2 = true → ∀ r ∈ R.retried, r.batchIdx ≠ p.1) := by
  refine sync_account_batched_checkpoint prevSynced isOffice365 oauthPresent
    pass1Out retryOut
    ((batch_folders (folders.filter (fun f => !(prevSynced.contains f))) 5).enum)
    R ?_
  rw [hR]
  unfold sync_account_parallel
  rw [if_neg (by simp [hne])]

/-- Witness for C1 at a concrete run: batch 0 succeeds in the pool, batch
1 fails and succeeds on retry; the checkpoint was saved exactly twice, once
per success classification. -/
theorem c1_checkpoint_only_successful_batches_witness :
    (sync_account_parallel ["F1", "F2", "F3", "F4", "F5", "F6"] [] true true
        (fun k => if k = 0 then .ok ⟨true, "Synced 5 folders", []⟩
          else .ok ⟨false, "Exit code 1, 2 errors", []⟩)
        (fun _ => .ok ⟨true, "Synced 1 folders", []⟩)).saves =
      ((sync_account_parallel ["F1", "F2", "F3", "F4", "F5", "F6"] [] true true
        (fun k => if k = 0 then .ok ⟨true, "Synced 5 folders", []⟩
          else .ok ⟨false, "Exit code 1, 2 errors", []⟩)
        (fun _ => .ok ⟨true, "Synced 1 folders", []⟩)).pass1.countP
          (fun p => p.2.2)) +
      ((sync_account_parallel ["F1", "F2", "F3", "F4", "F5", "F6"] [] true true
        (fun k => if k = 0 then .ok ⟨true, "Synced 5 folders", []⟩
          else .ok ⟨false, "Exit code 1, 2 errors", []⟩)
        (fun _ => .ok ⟨true, "Synced 1 folders", []⟩)).retried.countP
          (fun r => r.success)) :=
  (c1_checkpoint_only_successful_batches
    ["F1", "F2", "F3", "F4", "F5", "F6"] [] true true
    (fun k => if k = 0 then .ok ⟨true, "Synced 5 folders", []⟩
      else .ok ⟨false, "Exit code 1, 2 errors", []⟩)
    (fun _ => .ok ⟨true, "Synced 1 folders", []⟩) _ (by decide) rfl).2.1

/-- Claim C2 evaluated at its failing input: one batch fails with "Token
expired" and another with a transient exit, the account is Office 365 with
an OAuth manager present.  The code performs zero token refresh network
calls — the call at sync_improved.py line 359 names the method
`refresh_access_token`, which `OAuth2Manager` does not define, so it
raises AttributeError — the except handler then appends the token-expired
batch to `failed_batches` a second time, and the serial retry pass re-runs
every failed entry: the token-expired batch twice and the transient batch
once, against the claimed single refresh followed by a retry of exactly
the token-expired batches. -/
theorem c2_token_refresh_is_attribute_error :
    c2Run.refreshNetworkCalls = 0 ∧
    c2Run.refreshAttrErrors = 1 ∧
    c2Run.retried.map (fun r => r.batchIdx) = [0, 0, 1] ∧
    c2Run.failedBatches.map (fun x => x.1) = [0, 0, 1] ∧
    oauth2ManagerMethods.contains "refresh_access_token" = false := by
  decide

/-- Claim C10: for every string that does not begin with the Fernet marker
"gAAAAAB", decrypting its encryption returns it unchanged, and decrypt
never propagates a decryption failure: when the cipher rejects the input,
the input is returned unchanged. -/
theorem c10_decrypt_encrypt_roundtrip (F : FernetModel) :
    (∀ s, startsWithFernetMagic s = false →
      ConfigManager.decrypt F (ConfigManager.encrypt F s) = s) ∧
    (∀ e, F.dec e = none → ConfigManager.decrypt F e = e) := by
  constructor
  · intro s hs
    unfold ConfigManager.decrypt ConfigManager.encrypt
    rw [F.round s]
    simp [hs]
  · intro e he
    unfold ConfigManager.decrypt
    rw [he]

/-- Witness for C10 on the concrete cipher instance: the round trip on
"secret" and the legacy fallback on the non-ciphertext "plain". -/
theorem c10_decrypt_encrypt_roundtrip_witness :
    ConfigManager.decrypt toyFernet (ConfigManager.encrypt toyFernet "secret") =
      "secret" ∧
    ConfigManager.decrypt toyFernet "plain" = "plain" :=
  ⟨(c10_decrypt_encrypt_roundtrip toyFernet).1 "secret" (by decide),
    (c10_decrypt_encrypt_roundtrip toyFernet).2 "plain" (by decide)⟩

end EmailSync
